import Mathlib

/-!
Shallow embedding of `capsules/src/mock_udp.rs` (the `MockUdp1` test capsule
of the Tock kernel): a single-socket UDP session driver that binds a source
port, periodically sends a 2-byte payload to a fixed destination, and reports
received datagrams.

The capsule's mutable state (`src_port`, `dst_port`, the `udp_dgram` MapCell,
and the binding handles stored in the external `udp_sender`/`udp_receiver`
collaborators) is modelled as an explicit `State` record.  Each method becomes
a Lean function from the pre-state (plus the responses of the external
collaborators: port table, transport) to the post-state together with a trace
of the external calls it makes (`Effect` list).  Machine integers are `Nat`
with explicit `% 2 ^ w` where the source wraps (`wrapping_add`).
-/

namespace MockUdp

/-- Modelled from the spec: the datagram `Buffer` (from `net::buffer`, not in
the sources here) is a fixed byte region with a logical (active) length:
`slice(0..2)` restricts the logical length, `reset()` restores it to full
capacity, and indexing writes into the underlying bytes. -/
structure Buffer where
  data : List Nat
  len : Nat
deriving DecidableEq, Repr

/-- The bytes a consumer of the buffer sees: the active window. -/
def Buffer.payload (b : Buffer) : List Nat := b.data.take b.len

/-- `kernel::ReturnCode`, as far as this capsule inspects it
(`SUCCESS` versus anything else). -/
inductive ReturnCode where
  | SUCCESS
  | FAIL
  | EBUSY
deriving DecidableEq, Repr

/-- Result of `UdpPortTable::create_socket()`: `Ok(socket)` or an error. -/
inductive SocketResult where
  | ok (sock : Nat)
  | err
deriving DecidableEq, Repr

/-- Result of `UdpPortTable::bind(socket, port)`: a pair of binding handles,
or an error carrying the socket back. -/
inductive BindResult where
  | ok (send_bind rcv_bind : Nat)
  | err (sock : Nat)
deriving DecidableEq, Repr

/-- Result of `UdpPortTable::unbind(send_bind, rcv_bind)`: the socket on
success, or the mismatched handle pair back on failure. -/
inductive UnbindResult where
  | ok (sock : Nat)
  | err
deriving DecidableEq, Repr

/-- `pub const DST_ADDR: IPAddr` — the fixed 16-byte destination address. -/
def DST_ADDR : List Nat :=
  [0x10, 0x11, 0x12, 0x13, 0x14, 0x15, 0x16, 0x17,
   0x18, 0x19, 0x1a, 0x1b, 0x1c, 0x1d, 0x1e, 0x1f]

/-- `pub const PAYLOAD_LEN: usize = 192`. -/
def PAYLOAD_LEN : Nat := 192

/-- The mutable state of a `MockUdp1` session.  `udp_dgram` is the `MapCell`
(`none` = buffer in flight); `sender_binding` / `receiver_binding` are the
optional handles stored inside the external `udp_sender` / `udp_receiver`
(mutated via their `set_binding` accessors, read via `get_binding`, which —
modelled from the spec — is a non-destructive query of the current handle). -/
structure State where
  id : Nat
  src_port : Nat
  dst_port : Nat
  udp_dgram : Option Buffer
  sender_binding : Option Nat
  receiver_binding : Option Nat
deriving DecidableEq, Repr

/-- One externally visible call made by the capsule: timer, port table,
transport, or a `debug!` diagnostic line. -/
inductive Effect where
  | setAlarm (t : Nat)
  | createSocket
  | bindCall (sock port : Nat)
  | unbindCall (send_bind rcv_bind : Nat)
  | destroySocket (sock : Nat)
  | sendTo (addr : List Nat) (port : Nat) (buf : Buffer)
  | debug
deriving DecidableEq, Repr

/-- `self.alarm.now().wrapping_add(<A::Frequency>::frequency() * 5)` on the
`w`-bit time type: wrapping addition is addition mod `2 ^ w`. -/
def nextAlarm (now freq w : Nat) : Nat := (now + freq * 5) % 2 ^ w

/-- `MockUdp1::new`: stores the arguments; the buffer cell starts full and no
binding is installed yet. -/
def new (id src_port dst_port : Nat) (udp_dgram : Buffer) : State :=
  { id := id, src_port := src_port, dst_port := dst_port,
    udp_dgram := some udp_dgram,
    sender_binding := none, receiver_binding := none }

/-- `MockUdp1::start`.  `now`, `freq`, `w` describe the alarm clock; `sres`
and `bres` are the port table's responses to `create_socket` and to the `bind`
call (the latter consulted only when a socket was created). -/
def start (s : State) (now freq w : Nat) (sres : SocketResult)
    (bres : BindResult) : State × List Effect :=
  let t := nextAlarm now freq w
  match sres with
  | SocketResult.err => (s, [Effect.setAlarm t, Effect.createSocket, Effect.debug])
  | SocketResult.ok sock =>
    match bres with
    | BindResult.ok sb rb =>
        ({ s with sender_binding := some sb, receiver_binding := some rb },
         [Effect.setAlarm t, Effect.createSocket, Effect.debug,
          Effect.bindCall sock s.src_port, Effect.debug])
    | BindResult.err sock2 =>
        (s, [Effect.setAlarm t, Effect.createSocket, Effect.debug,
             Effect.bindCall sock s.src_port, Effect.debug,
             Effect.destroySocket sock2])

/-- `MockUdp1::rebind`.  Returns `none` when one of the
`get_binding().expect(...)` calls panics (a binding is missing); otherwise the
post-state and the trace of external calls.  `ures` / `bres` are the port
table's responses to `unbind` and to the subsequent `bind`. -/
def rebind (s : State) (src_port : Nat) (ures : UnbindResult)
    (bres : BindResult) : Option (State × List Effect) :=
  let s1 := { s with src_port := src_port }
  match s1.sender_binding, s1.receiver_binding with
  | some sb, some rb =>
    match ures with
    | UnbindResult.ok sock =>
      match bres with
      | BindResult.ok sb2 rb2 =>
          some ({ s1 with sender_binding := some sb2, receiver_binding := some rb2 },
                [Effect.unbindCall sb rb, Effect.bindCall sock s1.src_port,
                 Effect.debug])
      | BindResult.err sock2 =>
          some (s1, [Effect.unbindCall sb rb, Effect.bindCall sock s1.src_port,
                     Effect.debug, Effect.destroySocket sock2])
    | UnbindResult.err =>
        some (s1, [Effect.unbindCall sb rb, Effect.debug])
  | _, _ => none

/-- `MockUdp1::set_dst`: `self.dst_port.set(dst_port)`. -/
def set_dst (s : State) (dst_port : Nat) : State × List Effect :=
  ({ s with dst_port := dst_port }, [])

/-- `MockUdp1::send(value)`.  `value` is a `u16`; the two stored bytes model
`(value >> 8) as u8` and `(value & 0x00ff) as u8`.  `sres` is the
`ReturnCode` the transport's `send_to` returns immediately. -/
def send (s : State) (value : Nat) (sres : ReturnCode) : State × List Effect :=
  match s.udp_dgram with
  | some dgram =>
    let d := { dgram with
                 data := (dgram.data.set 0 ((value >>> 8) % 256)).set 1 (value % 256) }
    let d2 := { d with len := 2 }
    ({ s with udp_dgram := none },
     Effect.sendTo DST_ADDR s.dst_port d2 ::
       (match sres with
        | ReturnCode.SUCCESS => []
        | _ => [Effect.debug]))
  | none => (s, [Effect.debug])

/-- `UDPSendClient::send_done` for `MockUdp1`: reset the buffer to full
capacity, put it back in the cell, schedule the next alarm. -/
def send_done (s : State) (result : ReturnCode) (dgram : Buffer)
    (now freq w : Nat) : State × List Effect :=
  let d := { dgram with len := dgram.data.length }
  ({ s with udp_dgram := some d },
   [Effect.debug, Effect.debug, Effect.setAlarm (nextAlarm now freq w)])

/-- `time::Client::fired` for `MockUdp1`: `self.send(self.id)`. -/
def fired (s : State) (sres : ReturnCode) : State × List Effect :=
  send s s.id sres

/-- `UDPRecvClient::receive` for `MockUdp1`: one `debug!` line, nothing else. -/
def receive (s : State) (src_addr dst_addr : List Nat)
    (src_port dst_port : Nat) (payload : List Nat) : State × List Effect :=
  (s, [Effect.debug])

end MockUdp

namespace MockUdp

/-! Concrete session values used by witnesses and counterexamples. -/

/-- A full-capacity all-zero datagram buffer (`PAYLOAD_LEN` bytes). -/
def cbuf : Buffer := { data := List.replicate PAYLOAD_LEN 0, len := PAYLOAD_LEN }

/-- A bound session: id 7, source port 100, destination port 200, buffer
held, binding handles 1 (send) and 2 (receive) installed. -/
def cs : State :=
  { id := 7, src_port := 100, dst_port := 200, udp_dgram := some cbuf,
    sender_binding := some 1, receiver_binding := some 2 }

/-- The bound session with its buffer in flight. -/
def csInFlight : State := { cs with udp_dgram := none }

/-- Setting then updating positions 0 and 1 of a list of length at least 2
makes those its first two elements. -/
theorem take_two_set (l : List Nat) (a b : Nat) (h : 2 ≤ l.length) :
    ((l.set 0 a).set 1 b).take 2 = [a, b] := by
  match l, h with
  | x :: y :: t, _ => rfl

/-- C1 counterexample: with the bound session `cs` (source port 100), calling
`rebind 300` and having the port table report an unbind mismatch leaves the
session storing source port 300, not the old value 100 — the claim that the
old source port value is still stored is false. -/
theorem rebind_unbind_fail_changes_src_port :
    Option.map (fun r => r.1.src_port)
        (rebind cs 300 UnbindResult.err (BindResult.err 0)) = some 300 ∧
    cs.src_port = 100 := ⟨rfl, rfl⟩

/-- C1 (amended): when `rebind(new_src_port)` hits an unbind failure (handle
mismatch), the destination port, buffer cell and both binding handles are
unchanged and no further port-table or transport call is made — but the
source port has already been overwritten with `new_src_port` (the write
happens before the unbind attempt). -/
theorem rebind_unbind_fail_inert_except_src (s : State) (p sb rb : Nat)
    (bres : BindResult) (hs : s.sender_binding = some sb)
    (hr : s.receiver_binding = some rb) :
    rebind s p UnbindResult.err bres =
      some ({ s with src_port := p },
            [Effect.unbindCall sb rb, Effect.debug]) := by
  obtain ⟨i, sp, dp, ud, sb0, rb0⟩ := s
  subst hs; subst hr
  rfl

/-- C1 witness: the amended statement at the concrete bound session. -/
theorem rebind_unbind_fail_inert_except_src_witness :
    rebind cs 300 UnbindResult.err (BindResult.err 0) =
      some ({ cs with src_port := 300 },
            [Effect.unbindCall 1 2, Effect.debug]) :=
  rebind_unbind_fail_inert_except_src cs 300 1 2 (BindResult.err 0) rfl rfl

/-- C2: when the buffer is available, `send value` (for any `u16` value and
any immediate transport status) empties the cell and hands the transport a
buffer addressed to `DST_ADDR` and the current destination port, whose
logical length is exactly 2 and whose payload is the big-endian encoding of
`value` — regardless of the buffer's prior contents. -/
theorem send_encodes_big_endian (s : State) (dgram : Buffer) (value : Nat)
    (sres : ReturnCode) (hd : s.udp_dgram = some dgram)
    (hlen : 2 ≤ dgram.data.length) (hv : value < 65536) :
    ∃ b rest,
      (send s value sres).2 = Effect.sendTo DST_ADDR s.dst_port b :: rest ∧
      b.len = 2 ∧ b.payload = [value >>> 8, value % 256] ∧
      (send s value sres).1 = { s with udp_dgram := none } := by
  have hdiv : value >>> 8 = value / 256 := by
    simp [Nat.shiftRight_eq_div_pow]
  have hb : (value >>> 8) % 256 = value >>> 8 := by
    rw [hdiv]; omega
  unfold send
  rw [hd]
  refine ⟨_, _, rfl, rfl, ?_, rfl⟩
  show ((dgram.data.set 0 ((value >>> 8) % 256)).set 1 (value % 256)).take 2
      = [value >>> 8, value % 256]
  rw [hb, take_two_set dgram.data _ _ hlen]

/-- C2 witness: sending 0x1234 from the concrete bound session. -/
theorem send_encodes_big_endian_witness :
    cs.udp_dgram = some cbuf ∧ 2 ≤ cbuf.data.length ∧ 0x1234 < 65536 ∧
    ∃ b rest,
      (send cs 0x1234 ReturnCode.SUCCESS).2 =
        Effect.sendTo DST_ADDR cs.dst_port b :: rest ∧
      b.len = 2 ∧ b.payload = [0x1234 >>> 8, 0x1234 % 256] ∧
      (send cs 0x1234 ReturnCode.SUCCESS).1 = { cs with udp_dgram := none } :=
  ⟨rfl, by norm_num [cbuf, PAYLOAD_LEN], by norm_num,
   send_encodes_big_endian cs cbuf 0x1234 ReturnCode.SUCCESS rfl
     (by norm_num [cbuf, PAYLOAD_LEN]) (by norm_num)⟩

/-- C3: when the buffer is in flight (cell empty), `send` leaves the whole
session state unchanged and performs no external call other than one
diagnostic line. -/
theorem send_in_flight_noop (s : State) (value : Nat) (sres : ReturnCode)
    (h : s.udp_dgram = none) :
    send s value sres = (s, [Effect.debug]) := by
  unfold send
  rw [h]

/-- C3 witness: a second send while the buffer of `cs` is in flight. -/
theorem send_in_flight_noop_witness :
    send csInFlight 7 ReturnCode.SUCCESS = (csInFlight, [Effect.debug]) :=
  send_in_flight_noop csInFlight 7 ReturnCode.SUCCESS rfl

/-- C4: for every status and buffer, `send_done` puts a buffer with the same
bytes but logical length restored to full capacity back into the cell, and
its external calls end by scheduling the alarm at now + 5 × frequency
(wrapping); the status value is never consulted. -/
theorem send_done_resets_and_rearms (s : State) (result : ReturnCode)
    (dgram : Buffer) (now freq w : Nat) :
    (∃ b, (send_done s result dgram now freq w).1.udp_dgram = some b ∧
        b.data = dgram.data ∧ b.len = dgram.data.length) ∧
    (send_done s result dgram now freq w).2 =
      [Effect.debug, Effect.debug, Effect.setAlarm (nextAlarm now freq w)] ∧
    ∀ result2, send_done s result dgram now freq w =
        send_done s result2 dgram now freq w :=
  ⟨⟨_, rfl, rfl, rfl⟩, rfl, fun _ => rfl⟩

/-- C5: `start` schedules the alarm first and requests a socket second; a
bind request happens only when socket creation succeeded (and targets the
created socket and the current source port); on socket-creation failure the
alarm is already scheduled and nothing else happens (state unchanged, only a
diagnostic follows). -/
theorem start_order (s : State) (now freq w : Nat) (sres : SocketResult)
    (bres : BindResult) :
    (∃ rest, (start s now freq w sres bres).2 =
        Effect.setAlarm (nextAlarm now freq w) :: Effect.createSocket :: rest) ∧
    (sres = SocketResult.err →
      start s now freq w sres bres =
        (s, [Effect.setAlarm (nextAlarm now freq w), Effect.createSocket,
             Effect.debug])) ∧
    (∀ sock, sres = SocketResult.ok sock →
      Effect.bindCall sock s.src_port ∈ (start s now freq w sres bres).2) := by
  refine ⟨?_, ?_, ?_⟩
  · cases sres with
    | err => exact ⟨_, rfl⟩
    | ok sock =>
      cases bres with
      | ok sb rb => exact ⟨_, rfl⟩
      | err sock2 => exact ⟨_, rfl⟩
  · intro h
    subst h
    rfl
  · intro sock h
    subst h
    cases bres with
    | ok sb rb => simp [start]
    | err sock2 => simp [start]

/-- C5 witness: socket-creation failure from the concrete session. -/
theorem start_order_witness :
    start cs 10 2 32 SocketResult.err (BindResult.err 0) =
      (cs, [Effect.setAlarm (nextAlarm 10 2 32), Effect.createSocket,
            Effect.debug]) :=
  (start_order cs 10 2 32 SocketResult.err (BindResult.err 0)).2.1 rfl

/-- C6: when the socket is created but the bind of it to the current source
port fails, `start` calls destroy_socket on the socket the bind error
returned and leaves the whole state — in particular both binding slots —
exactly as before. -/
theorem start_bind_failure_releases_socket (s : State)
    (now freq w sock sock2 : Nat) :
    start s now freq w (SocketResult.ok sock) (BindResult.err sock2) =
      (s, [Effect.setAlarm (nextAlarm now freq w), Effect.createSocket,
           Effect.debug, Effect.bindCall sock s.src_port, Effect.debug,
           Effect.destroySocket sock2]) ∧
    (start s now freq w (SocketResult.ok sock)
        (BindResult.err sock2)).1.sender_binding = s.sender_binding ∧
    (start s now freq w (SocketResult.ok sock)
        (BindResult.err sock2)).1.receiver_binding = s.receiver_binding :=
  ⟨rfl, rfl, rfl⟩

/-- C7: `set_dst` stores the new destination port and changes nothing else:
every other field is preserved and no external call at all is made. -/
theorem set_dst_frame (s : State) (p : Nat) :
    (set_dst s p).1.dst_port = p ∧
    (set_dst s p).1.src_port = s.src_port ∧
    (set_dst s p).1.udp_dgram = s.udp_dgram ∧
    (set_dst s p).1.sender_binding = s.sender_binding ∧
    (set_dst s p).1.receiver_binding = s.receiver_binding ∧
    (set_dst s p).1.id = s.id ∧
    (set_dst s p).2 = [] :=
  ⟨rfl, rfl, rfl, rfl, rfl, rfl, rfl⟩

/-- C8: the receive callback mutates no session state and makes no external
call beyond one diagnostic line, for any addresses, ports and payload —
including the empty payload. -/
theorem receive_pure (s : State) (src_addr dst_addr : List Nat)
    (sp dp : Nat) (payload : List Nat) :
    receive s src_addr dst_addr sp dp payload = (s, [Effect.debug]) := rfl

/-- C9: `rebind` panics (modelled as `none`) exactly when the sender's or the
receiver's binding slot is unset; with both bindings installed it never
panics. -/
theorem rebind_requires_bindings (s : State) (p : Nat) (ures : UnbindResult)
    (bres : BindResult) :
    rebind s p ures bres = none ↔
      (s.sender_binding = none ∨ s.receiver_binding = none) := by
  obtain ⟨i, sp, dp, ud, sb0, rb0⟩ := s
  cases sb0 <;> cases rb0 <;> cases ures <;> cases bres <;>
    simp [rebind]

/-- C9 witness: a freshly constructed session (no bindings installed)
panics on rebind. -/
theorem rebind_requires_bindings_witness :
    rebind (new 7 100 200 cbuf) 300 UnbindResult.err (BindResult.err 0) =
      none ∧
    (new 7 100 200 cbuf).sender_binding = none :=
  ⟨(rebind_requires_bindings (new 7 100 200 cbuf) 300 UnbindResult.err
      (BindResult.err 0)).mpr (Or.inl rfl), rfl⟩

/-- C10: both alarm-scheduling sites (`start`, whose first external call is
the alarm, and `send_done`) schedule the instant (now + 5 × frequency) mod
2 ^ w; near clock wraparound the scheduled instant is numerically smaller
than now. -/
theorem alarm_sites_wrap (s : State) (now freq w : Nat) (sres : SocketResult)
    (bres : BindResult) (result : ReturnCode) (dgram : Buffer)
    (h1 : now < 2 ^ w) (h2 : 2 ^ w ≤ now + freq * 5)
    (h3 : freq * 5 < 2 ^ w) :
    (start s now freq w sres bres).2.head? =
      some (Effect.setAlarm ((now + freq * 5) % 2 ^ w)) ∧
    Effect.setAlarm ((now + freq * 5) % 2 ^ w) ∈
      (send_done s result dgram now freq w).2 ∧
    (now + freq * 5) % 2 ^ w < now := by
  refine ⟨?_, ?_, ?_⟩
  · cases sres <;> cases bres <;> rfl
  · show Effect.setAlarm ((now + freq * 5) % 2 ^ w) ∈
      [Effect.debug, Effect.debug, Effect.setAlarm (nextAlarm now freq w)]
    simp [nextAlarm]
  · rw [Nat.mod_eq_sub_mod h2, Nat.mod_eq_of_lt (by omega)]
    omega

/-- C10 witness: a 32-bit clock just before wraparound — the scheduled
instant 9 is smaller than now. -/
theorem alarm_sites_wrap_witness :
    (4294967295 < 2 ^ 32 ∧ 2 ^ 32 ≤ 4294967295 + 2 * 5 ∧
      2 * 5 < 2 ^ 32) ∧
    (4294967295 + 2 * 5) % 2 ^ 32 < 4294967295 :=
  ⟨⟨by decide, by decide, by decide⟩,
   (alarm_sites_wrap cs 4294967295 2 32 SocketResult.err (BindResult.err 0)
      ReturnCode.SUCCESS cbuf (by decide) (by decide) (by decide)).2.2⟩

end MockUdp
